import Mathlib

/-!
Shallow embedding of the Bazzar client code:
the shopkeeper dashboard (src/unnamed/part_000, a React component
`ShopkeeperDashboard`) and the public store listing page
(src/client/src/pages/Stores.tsx).

JavaScript string/number helpers are modelled over `List Char` and `ℚ`
so that every definition is executable and kernel-reducible.
-/

namespace Bazzar

/-! ## JavaScript-style string helpers -/

/-- Whitespace recognised by JavaScript `String.prototype.trim` (the
characters that actually occur in this code base's data: space, tab,
newline, carriage return). -/
def jsWs (c : Char) : Bool :=
  c == ' ' || c == '\t' || c == '\n' || c == '\r'

/-- JavaScript `s.trim()`: drop leading and trailing whitespace. -/
def jsTrim (s : String) : String :=
  ⟨((s.data.dropWhile jsWs).reverse.dropWhile jsWs).reverse⟩

/-- JavaScript `s.toLowerCase()` (ASCII case mapping, which covers the
strings compared in this code base). -/
def jsToLower (s : String) : String :=
  ⟨s.data.map Char.toLower⟩

/-- `needle` is a prefix of `hay` (character lists). -/
def listIsPref : List Char → List Char → Bool
  | [], _ => true
  | _ :: _, [] => false
  | a :: as, b :: bs => (a == b) && listIsPref as bs

/-- `needle` occurs as a contiguous run inside `hay` (character lists). -/
def listHasSub (needle : List Char) : List Char → Bool
  | [] => needle.isEmpty
  | c :: rest => listIsPref needle (c :: rest) || listHasSub needle rest

/-- JavaScript `hay.includes(needle)`. -/
def strIncludes (hay needle : String) : Bool :=
  listHasSub needle.data hay.data

/-- JavaScript `s.startsWith(pre)`. -/
def jsStartsWith (s pre : String) : Bool :=
  listIsPref pre.data s.data

/-- JavaScript `a || b` on an optional string field (`null`/`undefined`
and the empty string are falsy). -/
def jsOrStr (a : Option String) (b : String) : String :=
  match a with
  | some s => if s = "" then b else s
  | none => b

/-! ## JavaScript numeric coercion

`Number(s)` for the nonnegative decimal strings the server transmits in
`totalAmount` (digits with at most one decimal point); every other input
is mapped to `0` (in the browser such inputs yield `NaN`, which never
arises for the server-sent decimal strings this dashboard consumes). -/

def digitVal (c : Char) : Option Nat :=
  if c.isDigit then some (c.toNat - 48) else none

def decDigits (cs : List Char) : Option Nat :=
  cs.foldl
    (fun acc c =>
      match acc, digitVal c with
      | some n, some d => some (10 * n + d)
      | _, _ => none)
    (some 0)

def jsNumber (s : String) : Option ℚ :=
  match s.splitOn "." with
  | [intPart] => (decDigits intPart.data).map fun n => (n : ℚ)
  | [intPart, fracPart] =>
    match decDigits intPart.data, decDigits fracPart.data with
    | some n, some m => some ((n : ℚ) + (m : ℚ) / ((10 : ℚ) ^ fracPart.length))
    | _, _ => none
  | _ => none

def jsNum (s : String) : ℚ := (jsNumber s).getD 0

/-! ## Data model (from `@shared/schema` as used by the client) -/

structure Order where
  id : Nat
  customerName : String
  totalAmount : String
  status : String
  deriving Repr, DecidableEq

structure Product where
  id : Nat
  storeId : Nat
  categoryId : Nat
  name : String
  description : Option String
  price : String
  originalPrice : Option String
  stock : Nat
  images : List String
  isFastSell : Bool
  isOnOffer : Bool
  offerPercentage : Nat
  offerEndDate : Option String
  specifications : List (String × String)
  features : List String
  tags : List String
  isActive : Bool
  deriving Repr, DecidableEq

structure Store where
  id : Nat
  name : String
  description : Option String
  address : Option String
  ownerId : Nat
  deriving Repr, DecidableEq

/-! ## Dashboard statistics (part_000 lines 182-185) -/

/-- `const totalOrders = orders.length;` -/
def totalOrders (orders : List Order) : Nat := orders.length

/-- `const totalProducts = products.length;` -/
def totalProducts (products : List Product) : Nat := products.length

/-- `orders.reduce((sum, order) => sum + Number(order.totalAmount), 0)` -/
def totalRevenue (orders : List Order) : ℚ :=
  orders.foldl (fun sum o => sum + jsNum o.totalAmount) 0

/-- `orders.filter(order => order.status === "pending").length` -/
def pendingOrders (orders : List Order) : Nat :=
  (orders.filter (fun o => o.status == "pending")).length

theorem totalRevenue_foldl (l : List Order) (a : ℚ) :
    l.foldl (fun sum o => sum + jsNum o.totalAmount) a
      = a + (l.map fun o => jsNum o.totalAmount).sum := by
  induction l generalizing a with
  | nil => simp
  | cons o t ih =>
    simp only [List.foldl_cons, List.map_cons, List.sum_cons, ih]
    ring

/-- Claim C1: the dashboard's total revenue is the sum of the numeric
coercion of each order's `totalAmount`, and the order count, product
count and pending-order count are the corresponding pure functions of
the cache snapshot. -/
theorem C1_stats (orders : List Order) (products : List Product) :
    totalRevenue orders = (orders.map fun o => jsNum o.totalAmount).sum ∧
    totalOrders orders = orders.length ∧
    totalProducts products = products.length ∧
    pendingOrders orders = orders.countP (fun o => o.status == "pending") := by
  refine ⟨?_, rfl, rfl, ?_⟩
  · simpa [totalRevenue] using totalRevenue_foldl orders 0
  · simp [pendingOrders, List.countP_eq_length_filter]

/-! ## Geolocation-to-address resolution (part_000 lines 324-402) -/

/-- The store-creation form fields touched by `handleGetLocation`
(react-hook-form state; every field is a string). -/
structure StoreFormState where
  name : String
  address : String
  latitude : String
  longitude : String
  googleMapsLink : String
  deriving Repr, DecidableEq

/-- The `address` object of a Nominatim reverse-geocoding response. -/
structure NominatimAddress where
  house_number : Option String
  road : Option String
  city : Option String
  town : Option String
  village : Option String
  county : Option String
  district : Option String
  state : Option String
  country : Option String
  postcode : Option String
  deriving Repr, DecidableEq

/-- Outcome of `fetch(nominatim…).then(r => r.json())`: either the inner
try's await chain threw (network failure, bad JSON), or it produced a
JSON object with an optional `display_name` and address components. -/
inductive GeocodeOutcome where
  | thrown
  | ok (display_name : Option String) (address : NominatimAddress)
  deriving Repr, DecidableEq

/-- JavaScript truthiness of the optional string `data.display_name`. -/
def jsTruthy (o : Option String) : Bool :=
  match o with
  | some s => s != ""
  | none => false

/-- Address formatting from components (part_000 lines 363-380):
`[houseNumber && `${houseNumber} ${street}`, city, district, state,
country].filter(Boolean).join(', ')`. -/
def formatAddress (a : NominatimAddress) : String :=
  let houseNumber := jsOrStr a.house_number ""
  let street := jsOrStr a.road ""
  let city := jsOrStr a.city (jsOrStr a.town (jsOrStr a.village ""))
  let district := jsOrStr a.county (jsOrStr a.district "")
  let state := jsOrStr a.state ""
  let country := jsOrStr a.country ""
  let part1 := if houseNumber = "" then "" else houseNumber ++ " " ++ street
  String.intercalate ", " (([part1, city, district, state, country]).filter (fun p => p ≠ ""))

/-- `handleGetLocation` after the geolocation provider resolved with
coordinates whose decimal renderings are `lat`/`lon` (part_000 lines
344-387): sets `latitude`, `longitude` and `googleMapsLink`, then
attempts reverse geocoding; only a *thrown* geocode call sets the
fallback address, and a successful response sets the formatted address
only when `display_name` is truthy. -/
def handleGetLocation (s : StoreFormState) (lat lon : String)
    (geo : GeocodeOutcome) : StoreFormState :=
  let s1 := { s with
    latitude := lat
    longitude := lon
    googleMapsLink := "https://maps.google.com/?q=" ++ lat ++ "," ++ lon }
  match geo with
  | .thrown => { s1 with address := "Location coordinates set but address lookup failed" }
  | .ok dn a => if jsTruthy dn then { s1 with address := formatAddress a } else s1

def emptyNominatim : NominatimAddress :=
  { house_number := none, road := none, city := none, town := none,
    village := none, county := none, district := none, state := none,
    country := none, postcode := none }

def initialStoreForm : StoreFormState :=
  { name := "", address := "Old Address", latitude := "", longitude := "",
    googleMapsLink := "" }

/-- Claim C2 (counterexample): a geocoding response that succeeds but
contains no `display_name` does NOT set the address to the fallback
string — the address field is left untouched.  The fallback is written
only when the geocode call throws. -/
theorem C2_counterexample :
    (handleGetLocation initialStoreForm "26.7271" "87.2751"
        (GeocodeOutcome.ok none emptyNominatim)).address = "Old Address" ∧
    (handleGetLocation initialStoreForm "26.7271" "87.2751"
        (GeocodeOutcome.ok none emptyNominatim)).address
      ≠ "Location coordinates set but address lookup failed" := by
  constructor
  · rfl
  · decide

/-- Claim C2 (amended): after `handleGetLocation`, the coordinate fields
are always populated and the map link always equals
`https://maps.google.com/?q=<latitude>,<longitude>`; the address field is
set to the fixed fallback string exactly when the reverse-geocoding call
throws (a successful response lacking `display_name` leaves the address
unchanged). -/
theorem C2_geolocation (s : StoreFormState) (lat lon : String)
    (geo : GeocodeOutcome) :
    (handleGetLocation s lat lon geo).latitude = lat ∧
    (handleGetLocation s lat lon geo).longitude = lon ∧
    (handleGetLocation s lat lon geo).googleMapsLink
      = "https://maps.google.com/?q=" ++ lat ++ "," ++ lon ∧
    (geo = GeocodeOutcome.thrown →
      (handleGetLocation s lat lon geo).address
        = "Location coordinates set but address lookup failed") ∧
    (∀ dn a, geo = GeocodeOutcome.ok dn a → jsTruthy dn = false →
      (handleGetLocation s lat lon geo).address = s.address) := by
  cases geo with
  | thrown => refine ⟨rfl, rfl, rfl, fun _ => rfl, ?_⟩; intro dn a h; cases h
  | ok dn a =>
    refine ⟨?_, ?_, ?_, ?_, ?_⟩
    · simp only [handleGetLocation]; split <;> rfl
    · simp only [handleGetLocation]; split <;> rfl
    · simp only [handleGetLocation]; split <;> rfl
    · intro h; cases h
    · intro dn' a' hdn hfalse
      cases hdn
      simp [handleGetLocation, hfalse]

/-- Claim C2 witness: at coordinates (26.7271, 87.2751) with a thrown
geocode call, the map link is the fixed template instance and the
address is the fallback sentinel. -/
theorem C2_geolocation_witness :
    (handleGetLocation initialStoreForm "26.7271" "87.2751"
        GeocodeOutcome.thrown).googleMapsLink
      = "https://maps.google.com/?q=26.7271,87.2751" ∧
    (handleGetLocation initialStoreForm "26.7271" "87.2751"
        GeocodeOutcome.thrown).address
      = "Location coordinates set but address lookup failed" := by
  have h := C2_geolocation initialStoreForm "26.7271" "87.2751" GeocodeOutcome.thrown
  exact ⟨h.2.2.1.trans (by decide), h.2.2.2.1 rfl⟩

/-! ## Product form and mutation layer (part_000 lines 201-297) -/

/-- The react-hook-form values validated by `productSchema`
(part_000 lines 38-72); optional string fields default to `""`. -/
structure ProductFormData where
  name : String
  description : String
  price : String
  originalPrice : String
  categoryId : Nat
  stock : Nat
  images : List String
  isFastSell : Bool
  isOnOffer : Bool
  offerPercentage : Nat
  offerEndDate : String
  specifications : List (String × String)
  features : List String
  tags : List String
  deriving Repr, DecidableEq

/-- The `filteredData` object sent to the server (part_000 lines
214-228).  Note: it carries no `specifications`, `features` or `tags`
fields — the source object literal omits them. -/
structure ProductPayload where
  name : String
  description : Option String
  price : String
  originalPrice : Option String
  categoryId : Nat
  storeId : Nat
  stock : Nat
  images : List String
  isFastSell : Bool
  isOnOffer : Bool
  offerPercentage : Nat
  offerEndDate : Option String
  isActive : Bool
  deriving Repr, DecidableEq

/-- Construction of `filteredData` from the form values
(part_000 lines 214-228). -/
def filteredData (storeId : Nat) (d : ProductFormData) : ProductPayload :=
  { name := jsTrim d.name
    description := if jsTrim d.description = "" then none else some (jsTrim d.description)
    price := d.price
    originalPrice := if d.originalPrice = "" then none else some d.originalPrice
    categoryId := d.categoryId
    storeId := storeId
    stock := d.stock
    images := d.images.filter (fun img => jsTrim img != "")
    isFastSell := d.isFastSell
    isOnOffer := d.isOnOffer
    offerPercentage := if d.isOnOffer then d.offerPercentage else 0
    offerEndDate :=
      if d.isOnOffer then (if d.offerEndDate = "" then none else some d.offerEndDate)
      else none
    isActive := true }

/-- Outcome of an awaited `apiPost`/`apiPut`/`apiDelete` call: the
promise either resolved or rejected (threw). -/
inductive ApiOutcome where
  | success
  | failure
  deriving Repr, DecidableEq

/-- Observable effects of one run of `handleAddProduct`. -/
structure MutationResult where
  sent : Option (String × ProductPayload)
  successToast : Bool
  errorToast : Bool
  formWasReset : Bool
  invalidated : List String
  deriving Repr, DecidableEq

/-- `handleAddProduct` (part_000 lines 201-255): bail out with an error
toast when no store exists; otherwise build `filteredData`, PUT to
`/api/products/:id` when editing or POST to `/api/products` when
creating, and on success toast, reset the form and invalidate only the
store-scoped products query; on a thrown call toast the error, leaving
the form and the query cache untouched. -/
def handleAddProduct (currentStore : Option Nat) (editingProduct : Option Nat)
    (d : ProductFormData) (api : ApiOutcome) : MutationResult :=
  match currentStore with
  | none =>
    { sent := none, successToast := false, errorToast := true,
      formWasReset := false, invalidated := [] }
  | some storeId =>
    let payload := filteredData storeId d
    let endpoint :=
      match editingProduct with
      | some pid => "/api/products/" ++ toString pid
      | none => "/api/products"
    match api with
    | .success =>
      { sent := some (endpoint, payload), successToast := true,
        errorToast := false, formWasReset := true,
        invalidated := ["/api/products/store/" ++ toString storeId] }
    | .failure =>
      { sent := some (endpoint, payload), successToast := false,
        errorToast := true, formWasReset := false, invalidated := [] }

/-- `handleEditProduct` (part_000 lines 257-277): the form values the
edit screen is reset to for a product `p`. -/
def handleEditProduct (p : Product) : ProductFormData :=
  { name := p.name
    description := p.description.getD ""
    price := p.price
    originalPrice := p.originalPrice.getD ""
    categoryId := p.categoryId
    stock := p.stock
    images := p.images
    isFastSell := p.isFastSell
    isOnOffer := p.isOnOffer
    offerPercentage := p.offerPercentage
    offerEndDate := p.offerEndDate.getD ""
    specifications := p.specifications
    features := p.features
    tags := p.tags }

/-- Observable effects of one run of `handleDeleteProduct`. -/
structure DeleteResult where
  requested : Option String
  successToast : Bool
  errorToast : Bool
  invalidated : List String
  unhandledError : Bool
  deriving Repr, DecidableEq

/-- `handleDeleteProduct` (part_000 lines 279-297): after the confirm
prompt, DELETE the product; on success toast and invalidate both the
store-scoped and the global products queries; a thrown call is caught
and surfaced as an error toast (never an unhandled error), with no
invalidation. -/
def handleDeleteProduct (currentStore : Option Nat) (confirmed : Bool)
    (productId : Nat) (api : ApiOutcome) : DeleteResult :=
  if !confirmed then
    { requested := none, successToast := false, errorToast := false,
      invalidated := [], unhandledError := false }
  else
    match api with
    | .success =>
      { requested := some ("/api/products/" ++ toString productId),
        successToast := true, errorToast := false,
        invalidated :=
          match currentStore with
          | some storeId =>
            ["/api/products/store/" ++ toString storeId, "/api/products"]
          | none => [],
        unhandledError := false }
    | .failure =>
      { requested := some ("/api/products/" ++ toString productId),
        successToast := false, errorToast := true,
        invalidated := [], unhandledError := false }

def sampleForm : ProductFormData :=
  { name := "Rice 5kg", description := "", price := "450", originalPrice := "",
    categoryId := 2, stock := 10, images := [], isFastSell := false,
    isOnOffer := false, offerPercentage := 0, offerEndDate := "",
    specifications := [], features := [], tags := [] }

/-- Claim C3 (counterexample): a successful product update does NOT
invalidate the global `/api/products` descriptor — only the store-scoped
one. -/
theorem C3_counterexample :
    "/api/products" ∉
      (handleAddProduct (some 1) (some 5) sampleForm ApiOutcome.success).invalidated := by
  decide

/-- Claim C3 (amended): a successful product create or update
invalidates exactly the store-scoped products descriptor
`/api/products/store/:id`; the global `/api/products` descriptor is
invalidated (together with the store-scoped one) only by a successful
delete. -/
theorem C3_invalidation (storeId pid : Nat) (d : ProductFormData) :
    (handleAddProduct (some storeId) (some pid) d ApiOutcome.success).invalidated
      = ["/api/products/store/" ++ toString storeId] ∧
    (handleAddProduct (some storeId) none d ApiOutcome.success).invalidated
      = ["/api/products/store/" ++ toString storeId] ∧
    (handleDeleteProduct (some storeId) true pid ApiOutcome.success).invalidated
      = ["/api/products/store/" ++ toString storeId, "/api/products"] := by
  exact ⟨rfl, rfl, rfl⟩

/-- Claim C5: a failed create-product call invalidates no query
descriptor (so the product list cache keeps its previous snapshot —
invalidation is the handler's only cache interaction), shows an error
toast and no success toast, and does not reset the form. -/
theorem C5_failed_create (storeId : Nat) (d : ProductFormData) :
    (handleAddProduct (some storeId) none d ApiOutcome.failure).invalidated = [] ∧
    (handleAddProduct (some storeId) none d ApiOutcome.failure).errorToast = true ∧
    (handleAddProduct (some storeId) none d ApiOutcome.failure).successToast = false ∧
    (handleAddProduct (some storeId) none d ApiOutcome.failure).formWasReset = false := by
  exact ⟨rfl, rfl, rfl, rfl⟩

/-- Claim C7 (counterexample): deleting a product that is already gone
(the DELETE call rejects) is NOT treated as idempotent success: the
handler shows an error toast, no success toast, and its outcome differs
from the successful-delete outcome. -/
theorem C7_counterexample :
    (handleDeleteProduct (some 1) true 7 ApiOutcome.failure).successToast = false ∧
    (handleDeleteProduct (some 1) true 7 ApiOutcome.failure).errorToast = true ∧
    handleDeleteProduct (some 1) true 7 ApiOutcome.failure
      ≠ handleDeleteProduct (some 1) true 7 ApiOutcome.success := by
  refine ⟨rfl, rfl, ?_⟩
  decide

/-- Claim C7 (amended): a delete whose HTTP call rejects (e.g. the
product was already deleted) never raises an unhandled error — the
try/catch converts it into an error toast with no invalidation — but it
is surfaced as an error, not as idempotent success. -/
theorem C7_delete_not_fatal (store : Option Nat) (confirmed : Bool)
    (pid : Nat) (api : ApiOutcome) :
    (handleDeleteProduct store confirmed pid api).unhandledError = false ∧
    (api = ApiOutcome.failure →
      (handleDeleteProduct store confirmed pid api).errorToast = confirmed ∧
      (handleDeleteProduct store confirmed pid api).successToast = false ∧
      (handleDeleteProduct store confirmed pid api).invalidated = []) := by
  cases api <;> cases confirmed <;> cases store <;>
    simp [handleDeleteProduct]

/-- Claim C7 witness: concrete already-deleted delete. -/
theorem C7_delete_not_fatal_witness :
    (handleDeleteProduct (some 1) true 7 ApiOutcome.failure).unhandledError = false ∧
    (handleDeleteProduct (some 1) true 7 ApiOutcome.failure).errorToast = true := by
  have h := C7_delete_not_fatal (some 1) true 7 ApiOutcome.failure
  exact ⟨h.1, (h.2 rfl).1⟩

/-- Claim C9: whenever the form has `isOnOffer` false, the payload
actually sent carries `offerPercentage = 0` and `offerEndDate = null`,
whatever the form's offer fields held. -/
theorem C9_offer_reset (storeId : Nat) (editingProduct : Option Nat)
    (d : ProductFormData) (api : ApiOutcome) (h : d.isOnOffer = false) :
    ∀ endpoint payload,
      (handleAddProduct (some storeId) editingProduct d api).sent
        = some (endpoint, payload) →
      payload.offerPercentage = 0 ∧ payload.offerEndDate = none := by
  intro endpoint payload hs
  have hp : payload = filteredData storeId d := by
    cases api <;> cases editingProduct <;>
      simp [handleAddProduct] at hs <;> exact hs.2.symm
  subst hp
  simp [filteredData, h]

/-- Claim C9 witness: a concrete create with `isOnOffer` false. -/
theorem C9_offer_reset_witness :
    (filteredData 1 sampleForm).offerPercentage = 0 ∧
    (filteredData 1 sampleForm).offerEndDate = none := by
  have h := C9_offer_reset 1 none sampleForm ApiOutcome.success rfl
  exact h "/api/products" (filteredData 1 sampleForm) rfl

/-- Claim C10: the images list actually sent contains no entry that is
empty or whitespace-only, it is a sublist of the staged list (relative
order preserved), and every non-blank staged entry is kept. -/
theorem C10_images_filtered (storeId : Nat) (editingProduct : Option Nat)
    (d : ProductFormData) (api : ApiOutcome) :
    ∀ endpoint payload,
      (handleAddProduct (some storeId) editingProduct d api).sent
        = some (endpoint, payload) →
      (∀ img ∈ payload.images, jsTrim img ≠ "") ∧
      payload.images.Sublist d.images ∧
      (∀ img ∈ d.images, jsTrim img ≠ "" → img ∈ payload.images) := by
  intro endpoint payload hs
  have hp : payload = filteredData storeId d := by
    cases api <;> cases editingProduct <;>
      simp [handleAddProduct] at hs <;> exact hs.2.symm
  subst hp
  refine ⟨?_, ?_, ?_⟩
  · intro img him
    have := List.of_mem_filter him
    simpa using this
  · exact List.filter_sublist d.images
  · intro img him hne
    exact List.mem_filter.mpr ⟨him, by simpa using hne⟩

def blankImagesForm : ProductFormData :=
  { sampleForm with images := ["  ", "http://img/x.png", ""] }

/-- Claim C10 witness: a concrete submission whose staged images contain
a whitespace-only entry and an empty entry. -/
theorem C10_images_filtered_witness :
    (∀ img ∈ (filteredData 1 blankImagesForm).images, jsTrim img ≠ "") ∧
    (filteredData 1 blankImagesForm).images.Sublist blankImagesForm.images := by
  have h := C10_images_filtered 1 none blankImagesForm ApiOutcome.success
    "/api/products" (filteredData 1 blankImagesForm) rfl
  exact ⟨h.1, h.2.1⟩

theorem jsTrim_empty : jsTrim "" = "" := rfl

/-- A concrete inactive product with specifications, used to exhibit the
fields the edit payload does not carry over. -/
def p0 : Product :=
  { id := 9, storeId := 1, categoryId := 2, name := "Old Lamp",
    description := some "vintage", price := "120", originalPrice := none,
    stock := 3, images := ["http://img/1.png"], isFastSell := false,
    isOnOffer := false, offerPercentage := 0, offerEndDate := none,
    specifications := [("color", "red")], features := [], tags := [],
    isActive := false }

/-- Claim C4 (counterexample): submitting an unchanged edit of an
inactive product sends `isActive = true`, so the payload does not
preserve every field of the product (and the payload object carries no
`specifications`, `features` or `tags` fields at all). -/
theorem C4_counterexample :
    (filteredData p0.storeId (handleEditProduct p0)).isActive = true ∧
    p0.isActive = false := by
  exact ⟨rfl, rfl⟩

/-- Claim C4 (amended): for a product whose stored strings are already
in form shape (trimmed name, no blank image entries, description /
originalPrice / offerEndDate not the empty string), an unchanged edit
preserves name, description, price, originalPrice, categoryId, storeId,
stock, images, isFastSell and isOnOffer in the payload, and the offer
fields when the product is on offer; but the payload omits
specifications, features and tags entirely (the payload type has no such
fields), zeroes the offer fields when not on offer, and always sends
`isActive = true`, re-activating inactive products. -/
theorem C4_roundtrip (p : Product)
    (hname : jsTrim p.name = p.name)
    (hdesc : ∀ s, p.description = some s → jsTrim s = s ∧ s ≠ "")
    (himg : ∀ img ∈ p.images, jsTrim img ≠ "")
    (horig : p.originalPrice ≠ some "")
    (hoend : p.offerEndDate ≠ some "") :
    (filteredData p.storeId (handleEditProduct p)).name = p.name ∧
    (filteredData p.storeId (handleEditProduct p)).description = p.description ∧
    (filteredData p.storeId (handleEditProduct p)).price = p.price ∧
    (filteredData p.storeId (handleEditProduct p)).originalPrice = p.originalPrice ∧
    (filteredData p.storeId (handleEditProduct p)).categoryId = p.categoryId ∧
    (filteredData p.storeId (handleEditProduct p)).storeId = p.storeId ∧
    (filteredData p.storeId (handleEditProduct p)).stock = p.stock ∧
    (filteredData p.storeId (handleEditProduct p)).images = p.images ∧
    (filteredData p.storeId (handleEditProduct p)).isFastSell = p.isFastSell ∧
    (filteredData p.storeId (handleEditProduct p)).isOnOffer = p.isOnOffer ∧
    (p.isOnOffer = true →
      (filteredData p.storeId (handleEditProduct p)).offerPercentage = p.offerPercentage ∧
      (filteredData p.storeId (handleEditProduct p)).offerEndDate = p.offerEndDate) ∧
    (p.isOnOffer = false →
      (filteredData p.storeId (handleEditProduct p)).offerPercentage = 0 ∧
      (filteredData p.storeId (handleEditProduct p)).offerEndDate = none) ∧
    (filteredData p.storeId (handleEditProduct p)).isActive = true := by
  refine ⟨hname, ?_, rfl, ?_, rfl, rfl, rfl, ?_, rfl, rfl, ?_, ?_, rfl⟩
  · cases hd : p.description with
    | none => simp [filteredData, handleEditProduct, hd, jsTrim_empty]
    | some s =>
      obtain ⟨h1, h2⟩ := hdesc s hd
      simp [filteredData, handleEditProduct, hd, h1, h2]
  · cases ho : p.originalPrice with
    | none => simp [filteredData, handleEditProduct, ho]
    | some s =>
      have hs : s ≠ "" := by
        intro h; exact horig (by rw [ho, h])
      simp [filteredData, handleEditProduct, ho, hs]
  · show p.images.filter (fun img => jsTrim img != "") = p.images
    refine List.filter_eq_self.mpr ?_
    intro img him
    simpa using himg img him
  · intro ht
    refine ⟨by simp [filteredData, handleEditProduct, ht], ?_⟩
    cases hoe : p.offerEndDate with
    | none => simp [filteredData, handleEditProduct, ht, hoe, jsTrim_empty]
    | some s =>
      have hs : s ≠ "" := by
        intro h; exact hoend (by rw [hoe, h])
      simp [filteredData, handleEditProduct, ht, hoe, hs]
  · intro hf
    exact ⟨by simp [filteredData, handleEditProduct, hf],
           by simp [filteredData, handleEditProduct, hf]⟩

/-- Claim C4 witness: the concrete product `p0` satisfies the
hypotheses, and its unchanged edit preserves name and images. -/
theorem C4_roundtrip_witness :
    (filteredData p0.storeId (handleEditProduct p0)).name = p0.name ∧
    (filteredData p0.storeId (handleEditProduct p0)).images = p0.images := by
  have h := C4_roundtrip p0 (by decide)
    (by intro s hs; cases hs; exact ⟨by decide, by decide⟩)
    (by decide) (by decide) (by decide)
  exact ⟨h.1, h.2.2.2.2.2.2.2.1⟩

/-! ## Image upload staging (part_000 lines 460-503) -/

/-- The selected file: its byte size, its declared MIME type, and the
data URL `FileReader.readAsDataURL` would produce for it. -/
structure UploadFile where
  size : Nat
  mimeType : String
  dataUrl : String
  deriving Repr, DecidableEq

/-- Observable effects of one run of `handleFileUpload`. -/
structure UploadResult where
  images : List String
  errorToast : Option String
  encoded : Bool
  deriving Repr, DecidableEq

/-- `handleFileUpload` (part_000 lines 460-503): no selected file is a
no-op; a file over `2 * 1024 * 1024` bytes is rejected with a
"File too large" toast; a file whose type does not start with `image/`
is rejected with an image-file toast; both rejections happen before any
encoding and leave the staged images unchanged.  Otherwise the file is
encoded and (when the reader yields a non-empty result) appended. -/
def handleFileUpload (images : List String) (file : Option UploadFile) :
    UploadResult :=
  match file with
  | none => { images := images, errorToast := none, encoded := false }
  | some f =>
    if 2 * 1024 * 1024 < f.size then
      { images := images, errorToast := some "File too large", encoded := false }
    else if !(jsStartsWith f.mimeType "image/") then
      { images := images, errorToast := some "Please upload an image file",
        encoded := false }
    else
      { images := if f.dataUrl = "" then images else images ++ [f.dataUrl],
        errorToast := none, encoded := true }

/-- Claim C6: an oversized or non-image file is rejected before any
encoding takes place — an error is surfaced and the staged images list
is exactly unchanged. -/
theorem C6_upload_reject (images : List String) (f : UploadFile)
    (h : 2 * 1024 * 1024 < f.size ∨ jsStartsWith f.mimeType "image/" = false) :
    (handleFileUpload images (some f)).images = images ∧
    (handleFileUpload images (some f)).errorToast ≠ none ∧
    (handleFileUpload images (some f)).encoded = false := by
  by_cases hs : 2 * 1024 * 1024 < f.size
  · simp [handleFileUpload, hs]
  · rcases h with h | h
    · exact absurd h hs
    · simp [handleFileUpload, hs, h]

def bigFile : UploadFile :=
  { size := 3 * 1024 * 1024, mimeType := "image/png",
    dataUrl := "data:image/png;base64,AAAA" }

/-- Claim C6 witness: a 3MB image against the fixed 2MB ceiling leaves
the staged list unchanged, surfaces an error and encodes nothing. -/
theorem C6_upload_reject_witness :
    (handleFileUpload ["a.png"] (some bigFile)).images = ["a.png"] ∧
    (handleFileUpload ["a.png"] (some bigFile)).encoded = false := by
  have h := C6_upload_reject ["a.png"] bigFile (Or.inl (by decide))
  exact ⟨h.1, h.2.2⟩

/-! ## Store listing search filter (Stores.tsx lines 27-34) -/

/-- Case-insensitive containment as the page computes it:
`hay.toLowerCase().includes(needle.toLowerCase())`. -/
def ciContains (hay needle : String) : Bool :=
  strIncludes (jsToLower hay) (jsToLower needle)

/-- The `matchesSearch` predicate of `filteredStores`
(Stores.tsx lines 28-31). -/
def storeMatches (q : String) (s : Store) : Bool :=
  q == "" ||
  ciContains s.name q ||
  (match s.description with | some d => ciContains d q | none => false) ||
  (match s.address with | some a => ciContains a q | none => false)

/-- `filteredStores` (Stores.tsx lines 27-34). -/
def filteredStores (stores : List Store) (q : String) : List Store :=
  stores.filter (fun s => storeMatches q s)

theorem listHasSub_nil (l : List Char) : listHasSub [] l = true := by
  cases l <;> simp [listHasSub, listIsPref]

theorem ciContains_empty (hay : String) : ciContains hay "" = true := by
  have h : jsToLower "" = "" := rfl
  simp only [ciContains, h, strIncludes]
  exact listHasSub_nil _

theorem storeMatches_iff (q : String) (s : Store) :
    storeMatches q s = true ↔
      (ciContains s.name q = true ∨
       (∃ d, s.description = some d ∧ ciContains d q = true) ∨
       (∃ a, s.address = some a ∧ ciContains a q = true)) := by
  have h2 : (match s.description with
        | some d => ciContains d q
        | none => false) = true ↔
      (∃ d, s.description = some d ∧ ciContains d q = true) := by
    cases hd : s.description <;> simp
  have h3 : (match s.address with
        | some a => ciContains a q
        | none => false) = true ↔
      (∃ a, s.address = some a ∧ ciContains a q = true) := by
    cases ha : s.address <;> simp
  simp only [storeMatches, Bool.or_eq_true, beq_iff_eq, h2, h3, or_assoc]
  constructor
  · rintro (hq | h)
    · subst hq; exact Or.inl (ciContains_empty _)
    · exact h
  · exact Or.inr

/-- Claim C8: the store-list filter returns the full list for the empty
search string, and in general keeps exactly the stores whose name,
description or address contains the query case-insensitively. -/
theorem C8_store_filter (stores : List Store) (q : String) :
    (q = "" → filteredStores stores q = stores) ∧
    ∀ s, s ∈ filteredStores stores q ↔
      s ∈ stores ∧
        (ciContains s.name q = true ∨
         (∃ d, s.description = some d ∧ ciContains d q = true) ∨
         (∃ a, s.address = some a ∧ ciContains a q = true)) := by
  constructor
  · intro hq
    subst hq
    refine List.filter_eq_self.mpr ?_
    intro s _
    simp [storeMatches]
  · intro s
    rw [filteredStores, List.mem_filter, storeMatches_iff]

def demoStores : List Store :=
  [{ id := 1, name := "Siraha Mart", description := some "Groceries",
     address := some "Siraha Bazaar", ownerId := 4 },
   { id := 2, name := "Tech Hub", description := none,
     address := none, ownerId := 5 }]

/-- Claim C8 witness: on a concrete store list, the empty query returns
the full unfiltered list. -/
theorem C8_store_filter_witness :
    filteredStores demoStores "" = demoStores :=
  (C8_store_filter demoStores "").1 rfl

end Bazzar
